import Mathlib

/-!
Shallow embedding of the pi-gamepad repository (Go) for specification
verification.

Source files embedded:
* `gamepad.go` — semantic gamepad engine: driver mapping tables, axis cache,
  direction (vector) emission, and the per-button gesture state machine
  (`processButton`).
* `hid/hid.go` — event bus / dispatcher (`handleEvents`): classifies raw OS
  events as button or axis and forwards them to typed channels with a bounded
  (20 ms) delivery attempt, dropping on timeout.
* `hid/hid_darwin.go` — polled-report edge synthesizer (`buttonEdge`,
  `axisEdge`, `readDeviceInput` loop body).
* the Linux hid transport (`Connect`, `isGamepad`, `deviceExists`) — device
  probing and driver-name matching.

Modelling conventions:
* Machine integers (`int16`, `int`, `uint8`) are modelled as `Int` / `Nat`;
  all values that flow through the embedded code stay well inside the ranges
  where Go arithmetic and the model agree (no overflow occurs in the embedded
  paths: the only arithmetic is comparison, negation of an `int16` value held
  in a 64-bit `int`, and duration addition).
* Go `time.Time` / `time.Duration` values are modelled as `Int` timestamps in
  milliseconds.  `time.AfterFunc d f` is modelled by recording the deadline
  `now + d` in the state; `Timer.Stop` clears it.  A recorded timer fires iff
  its deadline is reached before the cancelling `Up` transition.
* Go channels and handler callbacks are modelled by returning the list of
  emissions (handler invocations / channel sends) an execution step performs.
* `float32` division in `emitDirection` is modelled by exact division in `ℚ`.
  Where a theorem distinguishes two values, the gap is far larger than any
  `float32` rounding error (the relevant gaps are at least `1/65534`, while
  a correctly rounded `float32` division of these magnitudes errs by less
  than `2^-24`), so every inequality proved over `ℚ` also holds for the
  `float32` computation in the source.
* Fallible Go functions returning an `error` are modelled with
  `Except String`.
-/

namespace PiGamepad

/-- Button position, `gamepad.go`: `UpPosition = 0` (the Go zero value),
`DownPosition = 1`. -/
inductive ButtonPosition where
  | up
  | down
deriving DecidableEq, Repr

/-- Button events, `gamepad.go`: `UpEvent, DownEvent, ClickEvent, HoldEvent`. -/
inductive ButtonEvent where
  | up
  | down
  | click
  | hold
deriving DecidableEq, Repr, BEq

/-- Conversion `ButtonEvent(pos)` used in `processButton`:
`UpPosition ↦ UpEvent`, `DownPosition ↦ DownEvent` (both are the same
underlying integer in Go). -/
def posEvent : ButtonPosition → ButtonEvent
  | .up => .up
  | .down => .down

/-- Per-button gesture state, `gamepad.go` `type button struct`.
`events = none` models a `nil` event slice (a variadic call with no
arguments), `holdTimer = some d` models a pending `time.AfterFunc` timer with
deadline `d`; `Stop` sets it to `none`.  The `handler` function pointer is
not part of the state; handler invocations are returned as event lists. -/
structure Button where
  events : Option (List ButtonEvent)
  lastPosition : ButtonPosition
  downTime : Int
  holdTimer : Option Int
deriving DecidableEq, Repr

/-- Fresh subscription state produced by the `On*` methods in `gamepad.go`:
only `handler` and `events` are set, the remaining fields are Go zero values
(`lastPosition = UpPosition`, zero `downTime`, `nil` timer). -/
def mkButton (events : Option (List ButtonEvent)) : Button :=
  { events := events, lastPosition := .up, downTime := 0, holdTimer := none }

/-- Membership test `includes` from `gamepad.go`: a `nil` slice subscribes to
every event kind, a non-nil slice restricts to its members. -/
def includes : Option (List ButtonEvent) → ButtonEvent → Bool
  | none, _ => true
  | some l, e => l.contains e

/-- Gesture step `(*Gamepad).processButton` from `gamepad.go`.  Returns the
updated button state and the list of handler invocations performed, or the
`handler not assigned` error when the button pointer is `nil`.
`clickDur`/`holdDur` are the gamepad's configured durations, `now` the
current time (`time.Now()`); the `DownPosition` branch records
`now + holdDur` as the pending hold deadline (arming via `time.AfterFunc`
after stopping any previous timer), the `UpPosition` branch stops the timer
and checks `time.Since(btn.downTime) < clickDuration`. -/
def processButton (clickDur holdDur : Int) (btn : Option Button)
    (pos : ButtonPosition) (now : Int) :
    Except String (Button × List ButtonEvent) :=
  match btn with
  | none => .error "handler not assigned"
  | some b =>
    if b.lastPosition = pos then
      .ok (b, [])  -- Swallow duplicate events
    else
      match pos with
      | .down =>
        let b1 : Button := { b with downTime := now }
        let out : List ButtonEvent :=
          if includes b1.events .down then [posEvent pos] else []
        let b2 : Button :=
          if includes b1.events .hold then
            { b1 with holdTimer := some (now + holdDur) }
          else b1
        .ok ({ b2 with lastPosition := pos }, out)
      | .up =>
        let b1 : Button := { b with holdTimer := none }
        let out : List ButtonEvent :=
          (if includes b1.events .up then [posEvent pos] else []) ++
          (if includes b1.events .click ∧ now - b1.downTime < clickDur then
            [.click] else [])
        .ok ({ b1 with lastPosition := pos }, out)

/-- Execution of a single press/release pair against one button: processes a
`Down` transition at `tDown`, lets the armed hold timer (if any) fire when
its deadline is reached no later than the cancelling `Up` at `tUp`, then
processes the `Up` transition at `tUp`.  The result lists the handler
invocations in chronological order, each tagged with its invocation time.
The hold timer callback (`time.AfterFunc` in `gamepad.go`) runs `holdDur`
after the `Down`; `Timer.Stop` inside the `Up` branch cancels it only when
the `Up` is processed strictly before the deadline. -/
def runPress (clickDur holdDur : Int) (b : Button) (tDown tUp : Int) :
    Button × List (Int × ButtonEvent) :=
  match processButton clickDur holdDur (some b) .down tDown with
  | .error _ => (b, [])
  | .ok (b1, out1) =>
    let holdOut : List (Int × ButtonEvent) :=
      match b1.holdTimer with
      | some d => if d ≤ tUp then [(d, .hold)] else []
      | none => []
    match processButton clickDur holdDur (some b1) .up tUp with
    | .error _ => (b1, out1.map (fun e => (tDown, e)) ++ holdOut)
    | .ok (b2, out2) =>
      (b2, out1.map (fun e => (tDown, e)) ++ holdOut ++
        out2.map (fun e => (tUp, e)))

/-- Sequential processing of a timestamped raw value trace against one
subscribed button, as the `handleEvents` loop does: each value is classified
(`value ≤ 0 ↦ UpPosition`, otherwise `DownPosition`) and fed to
`processButton`; handler invocations are collected in order. -/
def runButtonTrace (clickDur holdDur : Int) (b : Button) :
    List (Int × Int) → Button × List ButtonEvent
  | [] => (b, [])
  | (t, v) :: rest =>
    let pos : ButtonPosition := if v ≤ 0 then .up else .down
    match processButton clickDur holdDur (some b) pos t with
    | .error _ => runButtonTrace clickDur holdDur b rest
    | .ok (b1, out1) =>
      let r := runButtonTrace clickDur holdDur b1 rest
      (r.1, out1 ++ r.2)

/-- Semantic identifiers, `gamepad.go` `type Resolved int` constant block:
eleven button identifiers followed by eight axis identifiers. -/
inductive Resolved where
  | CrossButton
  | CircleButton
  | SquareButton
  | TriangleButton
  | L1Button
  | R1Button
  | SelectButton
  | StartButton
  | AnalogButton
  | LeftJoyButton
  | RightJoyButton
  | DPadXAxis
  | DPadYAxis
  | LeftJoyXAxis
  | LeftJoyYAxis
  | RightJoyXAxis
  | RightJoyYAxis
  | L2Axis
  | R2Axis
deriving DecidableEq, Repr

/-- Raw input kind constants from `gamepad.go`. -/
def InputTypeButton : Nat := 0

/-- Raw input kind constant `InputTypeAxis` from `gamepad.go`. -/
def InputTypeAxis : Nat := 1

/-- Raw input key, `gamepad.go` `type Input struct { Type int; Value uint8 }`. -/
structure Input where
  type : Nat
  value : Nat
deriving DecidableEq, Repr

/-- Device-specific mapping from raw inputs to semantic identifiers,
`gamepad.go` `type InputMapping map[Input]Resolved`; a missing key is
modelled as `none` (Go's comma-ok map lookup). -/
def InputMapping : Type := Input → Option Resolved

/-- Mapping table for driver name `"Microsoft X-Box 360 pad"` from the
`DriverMapping` literal in `gamepad.go`. -/
def xboxMapping : InputMapping := fun i =>
  if i.type = InputTypeButton then
    match i.value with
    | 0 => some .CrossButton
    | 1 => some .CircleButton
    | 2 => some .SquareButton
    | 3 => some .TriangleButton
    | 4 => some .L1Button
    | 5 => some .R1Button
    | 6 => some .SelectButton
    | 7 => some .StartButton
    | 8 => some .AnalogButton
    | 9 => some .LeftJoyButton
    | 10 => some .RightJoyButton
    | _ => none
  else if i.type = InputTypeAxis then
    match i.value with
    | 6 => some .DPadXAxis
    | 7 => some .DPadYAxis
    | 0 => some .LeftJoyXAxis
    | 1 => some .LeftJoyYAxis
    | 3 => some .RightJoyXAxis
    | 4 => some .RightJoyYAxis
    | 2 => some .L2Axis
    | 5 => some .R2Axis
    | _ => none
  else none

/-- Mapping table for driver name `"SHANWAN Android Gamepad"` from the
`DriverMapping` literal in `gamepad.go`. -/
def shanwanMapping : InputMapping := fun i =>
  if i.type = InputTypeButton then
    match i.value with
    | 0 => some .CrossButton
    | 1 => some .CircleButton
    | 3 => some .SquareButton
    | 4 => some .TriangleButton
    | 6 => some .L1Button
    | 7 => some .R1Button
    | 10 => some .SelectButton
    | 11 => some .StartButton
    | 12 => some .AnalogButton
    | 13 => some .LeftJoyButton
    | 14 => some .RightJoyButton
    | _ => none
  else if i.type = InputTypeAxis then
    match i.value with
    | 6 => some .DPadXAxis
    | 7 => some .DPadYAxis
    | 0 => some .LeftJoyXAxis
    | 1 => some .LeftJoyYAxis
    | 2 => some .RightJoyXAxis
    | 3 => some .RightJoyYAxis
    | 5 => some .L2Axis
    | 4 => some .R2Axis
    | _ => none
  else none

/-- Known driver names: the keys of the `DriverMapping` table in
`gamepad.go`. -/
def knownDriverNames : List String :=
  ["Microsoft X-Box 360 pad", "SHANWAN Android Gamepad"]

/-- Lookup `DriverMapping[name]`; an unknown name yields Go's zero-value
(`nil`) map, on which every lookup misses. -/
def driverMappingOf (name : String) : InputMapping :=
  if name = "Microsoft X-Box 360 pad" then xboxMapping
  else if name = "SHANWAN Android Gamepad" then shanwanMapping
  else fun _ => none

/-- Full-scale axis magnitude, `hid` package: `MaxValue = 1<<15 - 1`. -/
def MaxValue : Int := 32767

/-- Two-axis direction groups whose movement handlers `handleEvents`
recomputes (dpad, left joystick, right joystick handlers in `gamepad.go`). -/
inductive DirGroup where
  | dpad
  | leftJoy
  | rightJoy
deriving DecidableEq, Repr

/-- Group membership of an axis identifier, from the `resolved == …X ||
resolved == …Y` chain in the axis branch of `handleEvents` (`gamepad.go`):
each group axis is paired with the `(xIndex, yIndex)` arguments the code
passes to `emitDirection`. -/
def axisGroup : Resolved → Option (DirGroup × Resolved × Resolved)
  | .DPadXAxis => some (.dpad, .DPadXAxis, .DPadYAxis)
  | .DPadYAxis => some (.dpad, .DPadXAxis, .DPadYAxis)
  | .LeftJoyXAxis => some (.leftJoy, .LeftJoyXAxis, .LeftJoyYAxis)
  | .LeftJoyYAxis => some (.leftJoy, .LeftJoyXAxis, .LeftJoyYAxis)
  | .RightJoyXAxis => some (.rightJoy, .RightJoyXAxis, .RightJoyYAxis)
  | .RightJoyYAxis => some (.rightJoy, .RightJoyXAxis, .RightJoyYAxis)
  | _ => none

/-- Identifiers routed to `processButton` by the `switch resolved` statement
in the button branch of `handleEvents` (`gamepad.go`): exactly the eleven
button identifiers; the `default` case only logs. -/
def isButtonResolved : Resolved → Bool
  | .CrossButton | .CircleButton | .SquareButton | .TriangleButton
  | .L1Button | .R1Button | .SelectButton | .StartButton
  | .AnalogButton | .LeftJoyButton | .RightJoyButton => true
  | _ => false

/-- Observable emission of one engine step: a direction-handler invocation
`handler(x, y)` for a group, or a button-handler invocation for the button
bound to a semantic identifier. -/
inductive Emit where
  | dir (grp : DirGroup) (x y : ℚ)
  | btn (target : Resolved) (e : ButtonEvent)
deriving DecidableEq, Repr

/-- Gamepad engine state, `gamepad.go` `type Gamepad struct`.  The thirteen
named `*button` fields (`crossBtn`, …, `r2Btn`) are modelled as one map from
the semantic identifier the `switch` in `handleEvents` uses to select the
field (`l2Btn`/`r2Btn` are keyed by `L2Axis`/`R2Axis`); the three direction
handler fields are modelled by their assignment status per group. -/
structure Gamepad where
  invertY : Bool
  clickDuration : Int
  holdDuration : Int
  inputMapping : Input → Option Resolved
  axisCache : Resolved → Int
  btns : Resolved → Option Button
  dirHandlers : DirGroup → Bool

/-- Pointwise update of the axis cache (`g.axisCache[resolved] = value`). -/
def updateCache (c : Resolved → Int) (r : Resolved) (v : Int) :
    Resolved → Int :=
  fun x => if x = r then v else c x

/-- Pointwise update of the button states (mutation of the selected
`*button` field through its pointer). -/
def updateBtns (m : Resolved → Option Button) (r : Resolved) (b : Button) :
    Resolved → Option Button :=
  fun x => if x = r then some b else m x

/-- Gamepad state produced by `NewGamepad` in `gamepad.go` after applying
options: the axis cache is initialized with zero for every axis identifier
(`for i := DPadXAxis; i <= R2Axis; i++ { g.axisCache[i] = 0 }`; lookups of
other keys on the Go map also read zero), with no buttons subscribed and no
direction handlers assigned yet. -/
def mkGamepad (invertY : Bool) (clickDur holdDur : Int)
    (mapping : Input → Option Resolved) : Gamepad :=
  { invertY := invertY
    clickDuration := clickDur
    holdDuration := holdDur
    inputMapping := mapping
    axisCache := fun _ => 0
    btns := fun _ => none
    dirHandlers := fun _ => false }

/-- Direction emission `(*Gamepad).emitDirection` from `gamepad.go`: errors
when the group's handler is not assigned; otherwise reads both cached axis
values, negates `y` when `invertY` is set, and invokes the handler with
`float32(x)/MaxValue, float32(y)/MaxValue` (modelled as exact division in
`ℚ`).  No clamping is performed. -/
def emitDirection (g : Gamepad) (grp : DirGroup) (xIndex yIndex : Resolved) :
    Except String (List Emit) :=
  if g.dirHandlers grp = false then
    .error "handler not assigned"
  else
    let x := g.axisCache xIndex
    let y0 := g.axisCache yIndex
    let y := if g.invertY then y0 * (-1) else y0
    .ok [Emit.dir grp ((x : ℚ) / (MaxValue : ℚ)) ((y : ℚ) / (MaxValue : ℚ))]

/-- Button selection, state write-back and error logging around a
`processButton` call site in `handleEvents`: a returned error is only
logged (`debugLn`), leaving the engine state unchanged. -/
def dispatchButton (g : Gamepad) (r : Resolved) (pos : ButtonPosition)
    (now : Int) : Gamepad × List Emit :=
  match processButton g.clickDuration g.holdDuration (g.btns r) pos now with
  | .error _ => (g, [])
  | .ok (b1, out) =>
    ({ g with btns := updateBtns g.btns r b1 }, out.map (Emit.btn r))

/-- Button branch of the `select` in `(*Gamepad).handleEvents`
(`gamepad.go`): classify the value into a position, look the raw index up in
the input mapping (a miss is logged and dropped), then route the eleven
button identifiers to `processButton`; the `default` case only logs. -/
def handleButtonEvent (g : Gamepad) (idx : Nat) (value : Int) (now : Int) :
    Gamepad × List Emit :=
  let pos : ButtonPosition := if value ≤ 0 then .up else .down
  match g.inputMapping ⟨InputTypeButton, idx⟩ with
  | none => (g, [])
  | some r =>
    if isButtonResolved r then dispatchButton g r pos now
    else (g, [])

/-- Axis branch of the `select` in `(*Gamepad).handleEvents` (`gamepad.go`):
look the raw index up (a miss is logged and dropped), store the raw value in
the axis cache, then either recompute the direction of the containing
two-axis group, or route `L2Axis`/`R2Axis` to the button gesture path using
the sign of the value, or (for any other identifier) only log. -/
def handleAxisEvent (g : Gamepad) (idx : Nat) (value : Int) (now : Int) :
    Gamepad × List Emit :=
  match g.inputMapping ⟨InputTypeAxis, idx⟩ with
  | none => (g, [])
  | some r =>
    let g1 : Gamepad := { g with axisCache := updateCache g.axisCache r value }
    match axisGroup r with
    | some (grp, xIndex, yIndex) =>
      match emitDirection g1 grp xIndex yIndex with
      | .error _ => (g1, [])
      | .ok out => (g1, out)
    | none =>
      let pos : ButtonPosition := if value ≤ 0 then .up else .down
      if r = .L2Axis then dispatchButton g1 .L2Axis pos now
      else if r = .R2Axis then dispatchButton g1 .R2Axis pos now
      else (g1, [])

/-- Ingress event for the gamepad engine, as read from the two typed hid
channels in `handleEvents`. -/
inductive InEvt where
  | button (idx : Nat) (value : Int)
  | axis (idx : Nat) (value : Int)
deriving DecidableEq, Repr

/-- One iteration of the `handleEvents` loop on a timestamped event. -/
def handleEvent (g : Gamepad) : InEvt × Int → Gamepad × List Emit
  | (.button idx v, now) => handleButtonEvent g idx v now
  | (.axis idx v, now) => handleAxisEvent g idx v now

/-- Sequential processing of a list of timestamped ingress events by the
`handleEvents` loop, collecting all handler invocations in order. -/
def runGamepad (g : Gamepad) : List (InEvt × Int) → Gamepad × List Emit
  | [] => (g, [])
  | e :: rest =>
    let s := handleEvent g e
    let r := runGamepad s.1 rest
    (r.1, s.2 ++ r.2)

/-- Raw event type constant, `hid` package: `invalidEventType = 0`. -/
def invalidEventType : Nat := 0

/-- Raw event type constant, `hid` package: `buttonEventType = 1`. -/
def buttonEventType : Nat := 1

/-- Raw event type constant, `hid` package: `axisEventType = 2`. -/
def axisEventType : Nat := 2

/-- Raw OS-level event, `hid` package `type osEvent struct`.  The `Time`
field (milliseconds since the reference timestamp) is carried through the
dispatcher unchanged and is irrelevant to the verified claims, so it is
omitted here. -/
structure RawEv where
  type : Nat
  index : Nat
  value : Int
deriving DecidableEq, Repr

/-- Input observed by one iteration of the dispatcher loop
`(*HID).handleEvents` in `hid/hid.go`: the owning context completing, the
ingress channel closing, or an OS event arriving.  `consumerReady` is the
outcome of the bounded delivery attempt: `true` when the consumer accepts
the typed event before the fixed 20 ms timer expires, `false` when the
timer wins the `select` (real-time behaviour abstracted as an oracle). -/
inductive DispatchIn where
  | ctxDone
  | ingressClosed
  | ev (e : RawEv) (consumerReady : Bool)
deriving DecidableEq, Repr

/-- Action performed by the dispatcher for one input.  `closeOutput` models
a `close` of the `buttonCh`/`axisCh` writer; the constructor exists so the
specification's channel-closure claim is expressible — no transition of the
embedded code emits it, because `hid/hid.go` contains no `close` of either
output channel. -/
inductive DispatchAct where
  | deliverButton (idx : Nat) (v : Int)
  | dropButton (idx : Nat)
  | deliverAxis (idx : Nat) (v : Int)
  | dropAxis (idx : Nat)
  | closeOutput
deriving DecidableEq, Repr

/-- One iteration of the dispatcher loop `(*HID).handleEvents`
(`hid/hid.go`): returns the actions performed and whether the loop
continues.  A done context or a closed ingress channel makes the goroutine
return; a button (type 1) or axis (type 2) event is delivered to its typed
channel when the consumer accepts within the 20 ms bound and is otherwise
dropped with a log line; any other event type falls through the `switch`
with no action. -/
def dispatchStep : DispatchIn → List DispatchAct × Bool
  | .ctxDone => ([], false)
  | .ingressClosed => ([], false)
  | .ev e ready =>
    if e.type = buttonEventType then
      (if ready then [.deliverButton e.index e.value] else [.dropButton e.index],
        true)
    else if e.type = axisEventType then
      (if ready then [.deliverAxis e.index e.value] else [.dropAxis e.index],
        true)
    else ([], true)

/-- Run of the dispatcher loop over a sequence of inputs: iterates
`dispatchStep` until an input stops the loop.  The boolean result is `true`
while the goroutine is still running after consuming the list and `false`
once it has returned. -/
def dispatchRun : List DispatchIn → List DispatchAct × Bool
  | [] => ([], true)
  | i :: rest =>
    let s := dispatchStep i
    if s.2 then
      let r := dispatchRun rest
      (s.1 ++ r.1, r.2)
    else (s.1, false)

/-- Edge-synthesizer cache, `hid/hid_darwin.go` `type cache struct`: one
boolean of last logical state per decoded field of the polled report. -/
structure PollCache where
  startBtn : Bool
  selectBtn : Bool
  ljBtn : Bool
  rjBtn : Bool
  lpadAxis : Bool
  rpadAxis : Bool
  upadAxis : Bool
  dpadAxis : Bool
  xBtn : Bool
  oBtn : Bool
  sBtn : Bool
  tBtn : Bool
  l1Btn : Bool
  r1Btn : Bool
  analogBtn : Bool
  l2Axis : Bool
  r2Axis : Bool
  ljXAxis : Bool
  ljYAxis : Bool
  rjXAxis : Bool
  rjYAxis : Bool
deriving DecidableEq, Repr

/-- Cache with every field `false` (the zero value `cache{}` created at the
top of `readDeviceInput`). -/
def emptyPollCache : PollCache :=
  ⟨false, false, false, false, false, false, false, false, false, false,
   false, false, false, false, false, false, false, false, false, false,
   false⟩

/-- Button edge detector `(*cache).buttonEdge` from `hid/hid_darwin.go`:
compares the decoded field `b` against the pattern `want`; a rising edge
(matches now, cached `false`) yields a button event with value 1 and caches
`true`, a falling edge (no match, cached `true`) yields a button event with
value 0 and caches `false`; otherwise no event.  Returns
`(eventType, value, new cache bit)`. -/
def buttonEdge (b want : Nat) (cached : Bool) : Nat × Int × Bool :=
  if b = want then
    if !cached then (buttonEventType, 1, true)
    else (invalidEventType, 0, cached)
  else if cached then (buttonEventType, 0, false)
  else (invalidEventType, 0, cached)

/-- Axis edge detector `(*cache).axisEdge` from `hid/hid_darwin.go`: a
nonzero sample always yields an axis event carrying the literal signed
value and caches `true` (the rising-edge-only check is commented out in the
source, so an unchanged nonzero value is re-emitted on every poll); a zero
sample yields a falling axis event with value 0 when the cache was `true`;
otherwise no event. -/
def axisEdge (val : Int) (cached : Bool) : Nat × Int × Bool :=
  if val ≠ 0 then (axisEventType, val, true)
  else if cached then (axisEventType, 0, false)
  else (invalidEventType, 0, cached)

/-- Report field index constants from the `iota + 1` block in
`hid/hid_darwin.go` (`startButtonIndex = 1` through `rjyAxisIndex = 19`). -/
def startButtonIndex : Nat := 1

/-- Index constant `selectButtonIndex = 2`. -/
def selectButtonIndex : Nat := 2

/-- Index constant `ljButtonIndex = 3`. -/
def ljButtonIndex : Nat := 3

/-- Index constant `rjButtonIndex = 4`. -/
def rjButtonIndex : Nat := 4

/-- Index constant `dpadXAxisIndex = 5`. -/
def dpadXAxisIndex : Nat := 5

/-- Index constant `dpadYAxisIndex = 6`. -/
def dpadYAxisIndex : Nat := 6

/-- Index constant `crossButtonIndex = 7`. -/
def crossButtonIndex : Nat := 7

/-- Index constant `circleButtonIndex = 8`. -/
def circleButtonIndex : Nat := 8

/-- Index constant `squareButtonIndex = 9`. -/
def squareButtonIndex : Nat := 9

/-- Index constant `triangleButtonIndex = 10`. -/
def triangleButtonIndex : Nat := 10

/-- Index constant `l1ButtonIndex = 11`. -/
def l1ButtonIndex : Nat := 11

/-- Index constant `r1ButtonIndex = 12`. -/
def r1ButtonIndex : Nat := 12

/-- Index constant `analogButtonIndex = 13`. -/
def analogButtonIndex : Nat := 13

/-- Index constant `l2AxisIndex = 14`. -/
def l2AxisIndex : Nat := 14

/-- Index constant `r2AxisIndex = 15`. -/
def r2AxisIndex : Nat := 15

/-- Index constant `ljxAxisIndex = 16`. -/
def ljxAxisIndex : Nat := 16

/-- Index constant `ljyAxisIndex = 17`. -/
def ljyAxisIndex : Nat := 17

/-- Index constant `rjxAxisIndex = 18`. -/
def rjxAxisIndex : Nat := 18

/-- Index constant `rjyAxisIndex = 19`. -/
def rjyAxisIndex : Nat := 19

/-- Polled USB report, bytes 2 through 13 of the endpoint buffer read by
`readDeviceInput` (`hid/hid_darwin.go`); bytes 0 and 1 are an unused
header.  Each field is one byte (values 0–255). -/
structure Report where
  b2 : Nat
  b3 : Nat
  b4 : Nat
  b5 : Nat
  b6 : Nat
  b7 : Nat
  b8 : Nat
  b9 : Nat
  b10 : Nat
  b11 : Nat
  b12 : Nat
  b13 : Nat
deriving DecidableEq, Repr

/-- Little-endian signed 16-bit decode
`int16(binary.LittleEndian.Uint16(...))` used for the four stick axes. -/
def toInt16 (lo hi : Nat) : Int :=
  let u : Nat := (lo % 256) + 256 * (hi % 256)
  if u < 32768 then (u : Int) else (u : Int) - 65536

/-- Emission guard `if ev != invalidEventType { emit(ch, ev, index, v) }`
around each edge-detector call in `readDeviceInput`. -/
def edgeOut (e : Nat) (idx : Nat) (v : Int) : List RawEv :=
  if e ≠ invalidEventType then [⟨e, idx, v⟩] else []

/-- Emission guard for the DPad-bit and trigger-byte call sites in
`readDeviceInput`, which re-synthesize the button edge as an axis event
with a substituted value:
`if ev != invalidEventType { emit(ch, axisEventType, index, v) }`. -/
def axisOut (e : Nat) (idx : Nat) (v : Int) : List RawEv :=
  if e ≠ invalidEventType then [⟨axisEventType, idx, v⟩] else []

/-- One iteration of the polling loop `readDeviceInput` in
`hid/hid_darwin.go`: decodes the report nibbles/bytes/words in source
order, runs the matching edge detector for each field against its cache
bit, and emits the synthesized events.  DPad bits are synthesized as axis
events at `±MaxValue`/0, the two 8-bit triggers are matched against the
full-scale pattern 255 and synthesized as axis events at `MaxValue`/0, and
the four 16-bit stick words forward their literal signed magnitude. -/
def pollStep (c : PollCache) (r : Report) : PollCache × List RawEv :=
  let b2msb := r.b2 / 16
  let e1 := buttonEdge b2msb 1 c.startBtn
  let o1 := edgeOut e1.1 startButtonIndex e1.2.1
  let e2 := buttonEdge b2msb 2 c.selectBtn
  let o2 := edgeOut e2.1 selectButtonIndex e2.2.1
  let e3 := buttonEdge b2msb 4 c.ljBtn
  let o3 := edgeOut e3.1 ljButtonIndex e3.2.1
  let e4 := buttonEdge b2msb 8 c.rjBtn
  let o4 := edgeOut e4.1 rjButtonIndex e4.2.1
  let b2lsb := r.b2 % 16
  let e5 := buttonEdge b2lsb 4 c.lpadAxis
  let o5 := axisOut e5.1 dpadXAxisIndex (if e5.2.1 = 1 then -MaxValue else 0)
  let e6 := buttonEdge b2lsb 8 c.rpadAxis
  let o6 := axisOut e6.1 dpadXAxisIndex (if e6.2.1 = 1 then MaxValue else 0)
  let e7 := buttonEdge b2lsb 1 c.upadAxis
  let o7 := axisOut e7.1 dpadYAxisIndex (if e7.2.1 = 1 then MaxValue else 0)
  let e8 := buttonEdge b2lsb 2 c.dpadAxis
  let o8 := axisOut e8.1 dpadYAxisIndex (if e8.2.1 = 1 then -MaxValue else 0)
  let b3msb := r.b3 / 16
  let e9 := buttonEdge b3msb 1 c.xBtn
  let o9 := edgeOut e9.1 crossButtonIndex e9.2.1
  let e10 := buttonEdge b3msb 2 c.oBtn
  let o10 := edgeOut e10.1 circleButtonIndex e10.2.1
  let e11 := buttonEdge b3msb 4 c.sBtn
  let o11 := edgeOut e11.1 squareButtonIndex e11.2.1
  let e12 := buttonEdge b3msb 8 c.tBtn
  let o12 := edgeOut e12.1 triangleButtonIndex e12.2.1
  let b3lsb := r.b3 % 16
  let e13 := buttonEdge b3lsb 1 c.l1Btn
  let o13 := edgeOut e13.1 l1ButtonIndex e13.2.1
  let e14 := buttonEdge b3lsb 2 c.r1Btn
  let o14 := edgeOut e14.1 r1ButtonIndex e14.2.1
  let e15 := buttonEdge b3lsb 4 c.analogBtn
  let o15 := edgeOut e15.1 analogButtonIndex e15.2.1
  let e16 := buttonEdge r.b4 255 c.l2Axis
  let o16 := axisOut e16.1 l2AxisIndex (if e16.2.1 > 0 then MaxValue else 0)
  let e17 := buttonEdge r.b5 255 c.r2Axis
  let o17 := axisOut e17.1 r2AxisIndex (if e17.2.1 > 0 then MaxValue else 0)
  let e18 := axisEdge (toInt16 r.b6 r.b7) c.ljXAxis
  let o18 := edgeOut e18.1 ljxAxisIndex e18.2.1
  let e19 := axisEdge (toInt16 r.b8 r.b9) c.ljYAxis
  let o19 := edgeOut e19.1 ljyAxisIndex e19.2.1
  let e20 := axisEdge (toInt16 r.b10 r.b11) c.rjXAxis
  let o20 := edgeOut e20.1 rjxAxisIndex e20.2.1
  let e21 := axisEdge (toInt16 r.b12 r.b13) c.rjYAxis
  let o21 := edgeOut e21.1 rjyAxisIndex e21.2.1
  (⟨e1.2.2, e2.2.2, e3.2.2, e4.2.2, e5.2.2, e6.2.2, e7.2.2, e8.2.2,
    e9.2.2, e10.2.2, e11.2.2, e12.2.2, e13.2.2, e14.2.2, e15.2.2,
    e16.2.2, e17.2.2, e18.2.2, e19.2.2, e20.2.2, e21.2.2⟩,
   o1 ++ o2 ++ o3 ++ o4 ++ o5 ++ o6 ++ o7 ++ o8 ++ o9 ++ o10 ++ o11 ++
   o12 ++ o13 ++ o14 ++ o15 ++ o16 ++ o17 ++ o18 ++ o19 ++ o20 ++ o21)

/-- Whitespace predicate used by Go `strings.TrimSpace` (`unicode.IsSpace`);
the embedded device names only ever contain ASCII whitespace, for which
this predicate agrees with Go. -/
def isSpaceChar (ch : Char) : Bool :=
  ch = ' ' ∨ ch = '\t' ∨ ch = '\n' ∨ ch = '\r' ∨ ch = '\x0b' ∨ ch = '\x0c'

/-- Trim of leading and trailing whitespace, Go `strings.TrimSpace`. -/
def trimSpace (s : String) : String :=
  String.mk (((s.data.dropWhile isSpaceChar).reverse.dropWhile
    isSpaceChar).reverse)

/-- Platform environment abstracted from the filesystem reads of the Linux
transport: `deviceExists i` is `os.Stat("/dev/input/js<i>")` succeeding,
`readName i` the contents of `/sys/class/input/js<i>/device/name` (or
`none` on a read error), and `openOk i` whether
`os.OpenFile("/dev/input/js<i>")` succeeds. -/
structure Env where
  deviceExists : Nat → Bool
  readName : Nat → Option String
  openOk : Nat → Bool

/-- Device-name check `isGamepad` (`gamepad.go`, and identically the Linux
hid transport): reads the device-name file, trims whitespace, and compares
case-sensitively against the known driver-mapping keys, returning the
matching key.  Go iterates the map's keys; since the keys are distinct at
most one can equal the trimmed name, so the scan order is irrelevant. -/
def isGamepad (env : Env) (idx : Nat) : Option String :=
  match env.readName idx with
  | none => none
  | some d => knownDriverNames.find? (fun k => trimSpace d = k)

/-- Probe loop of the Linux `hid.Connect`: `for i := 0; i < 5; i++`, the
first existing device whose name matches a known driver wins. -/
def probe (env : Env) : List Nat → Option (Nat × String)
  | [] => none
  | i :: rest =>
    if env.deviceExists i then
      match isGamepad env i with
      | some k => some (i, k)
      | none => probe env rest
    else probe env rest

/-- Connected transport handle, the fields of `hid.HID` relevant to
connection: the matched driver name. -/
structure HIDConn where
  driver : String
deriving DecidableEq, Repr

/-- Linux `hid.Connect`: probes joystick indices 0–4; failure to find a
matching device yields the `cannot find device` error, a failing device
open propagates the open error; otherwise the handle records the matched
driver name. -/
def connect (env : Env) : Except String HIDConn :=
  match probe env [0, 1, 2, 3, 4] with
  | none => .error "cannot find device"
  | some (i, k) => if env.openOk i then .ok ⟨k⟩ else .error "open error"

/-- Connection-relevant result of `NewGamepad` (`gamepad.go`): the matched
driver identity and the input mapping selected from `DriverMapping` at
construction time (never reassigned afterwards). -/
structure GamepadConn where
  driver : String
  inputMapping : Input → Option Resolved

/-- Connection phase of `NewGamepad` (`gamepad.go`): a failed transport
connect aborts with the `failed to connect with device` error and no
gamepad value; on success the input mapping is chosen by the connected
driver name. -/
def newGamepadConn (env : Env) : Except String GamepadConn :=
  match connect env with
  | .error _ => .error "failed to connect with device"
  | .ok d => .ok ⟨d.driver, driverMappingOf d.driver⟩

/-- Subscription `(*Gamepad).OnDPad` (`gamepad.go`): assigns the dpad
direction handler. -/
def onDPad (g : Gamepad) : Gamepad :=
  { g with dirHandlers := fun x => if x = DirGroup.dpad then true
      else g.dirHandlers x }

/-- Subscription `(*Gamepad).OnLeftJoystick` (`gamepad.go`). -/
def onLeftJoystick (g : Gamepad) : Gamepad :=
  { g with dirHandlers := fun x => if x = DirGroup.leftJoy then true
      else g.dirHandlers x }

/-- Subscription `(*Gamepad).OnRightJoystick` (`gamepad.go`). -/
def onRightJoystick (g : Gamepad) : Gamepad :=
  { g with dirHandlers := fun x => if x = DirGroup.rightJoy then true
      else g.dirHandlers x }

/-- Button subscription (`OnCross`, `OnL2`, … in `gamepad.go`): installs a
fresh gesture state carrying the given event list for the button keyed by
`r`. -/
def subscribeButton (g : Gamepad) (r : Resolved)
    (events : Option (List ButtonEvent)) : Gamepad :=
  { g with btns := updateBtns g.btns r (mkButton events) }

/-- Freshly constructed engine with the Xbox mapping and default durations
(`NewGamepad` with no options). -/
def gXbox : Gamepad := mkGamepad false 300 800 xboxMapping

/-- Engine with Y-inversion configured and the dpad direction handler
subscribed. -/
def gDpadInv : Gamepad := onDPad (mkGamepad true 300 800 xboxMapping)

/-- Engine without Y-inversion, dpad direction handler subscribed. -/
def gDpadPlain : Gamepad := onDPad gXbox

/-- Engine without Y-inversion, left-joystick direction handler
subscribed. -/
def gLeftJoy : Gamepad := onLeftJoystick gXbox

/-- Polled report whose only active field is the left-joystick X word
(bytes 6/7) at value 5. -/
def rptLJ5 : Report := ⟨0, 0, 0, 0, 5, 0, 0, 0, 0, 0, 0, 0⟩

/-- Polled report whose only active field is the L2 trigger byte (byte 4)
at value 128. -/
def rptTrig128 : Report := ⟨0, 0, 128, 0, 0, 0, 0, 0, 0, 0, 0, 0⟩

/-- Restriction of a timed emission list to one event kind (measurement
helper for stating gesture properties). -/
def selectEvents (e : ButtonEvent) :
    List (Int × ButtonEvent) → List (Int × ButtonEvent)
  | [] => []
  | p :: rest =>
    if p.2 = e then p :: selectEvents e rest else selectEvents e rest

/-- Removal of one event kind from a timed emission list (measurement
helper for stating gesture properties). -/
def dropEvents (e : ButtonEvent) :
    List (Int × ButtonEvent) → List (Int × ButtonEvent)
  | [] => []
  | p :: rest =>
    if p.2 = e then dropEvents e rest else p :: dropEvents e rest

/-- Concrete platform environment whose probed devices all report a name
matching no driver-mapping key. -/
def envNoMatch : Env :=
  { deviceExists := fun _ => true
    readName := fun _ => some "PiHut Gamepad"
    openOk := fun _ => true }

/-- Concrete platform environment whose device at index 1 reports a known
driver name surrounded by whitespace. -/
def envMatch : Env :=
  { deviceExists := fun _ => true
    readName := fun i =>
      if i = 1 then some " Microsoft X-Box 360 pad\n" else none
    openOk := fun _ => true }

/-! ## Helper lemmas -/

/-- Duplicate positions are swallowed by the early return in
`processButton`. -/
theorem processButton_same (clickDur holdDur : Int) (b : Button)
    (pos : ButtonPosition) (now : Int) (h : b.lastPosition = pos) :
    processButton clickDur holdDur (some b) pos now = .ok (b, []) := by
  simp [processButton, h]

/-- After an accepted `processButton` step the stored position equals the
processed position. -/
theorem processButton_lastPosition (clickDur holdDur : Int) (b b1 : Button)
    (out : List ButtonEvent) (pos : ButtonPosition) (now : Int)
    (h : processButton clickDur holdDur (some b) pos now = .ok (b1, out)) :
    b1.lastPosition = pos := by
  by_cases hd : b.lastPosition = pos
  · rw [processButton_same clickDur holdDur b pos now hd] at h
    simp only [Except.ok.injEq, Prod.mk.injEq] at h
    obtain ⟨hb, -⟩ := h
    subst hb
    exact hd
  · cases pos <;>
      · simp only [processButton, if_neg hd, Except.ok.injEq,
          Prod.mk.injEq] at h
        obtain ⟨hb, -⟩ := h
        subst hb
        rfl

/-- Processing a trace of release values from a fresh subscription changes
nothing and emits nothing. -/
theorem runButtonTrace_releases (clickDur holdDur : Int)
    (events : Option (List ButtonEvent)) :
    ∀ trace : List (Int × Int), (∀ p ∈ trace, p.2 ≤ 0) →
      runButtonTrace clickDur holdDur (mkButton events) trace =
        (mkButton events, []) := by
  intro trace
  induction trace with
  | nil => intro _; rfl
  | cons p rest ih =>
    intro h
    obtain ⟨t, v⟩ := p
    have hv : v ≤ 0 := h (t, v) (List.mem_cons_self _ _)
    have hrest : ∀ q ∈ rest, q.2 ≤ 0 :=
      fun q hq => h q (List.mem_cons_of_mem _ hq)
    simp only [runButtonTrace, if_pos hv,
      processButton_same clickDur holdDur (mkButton events)
        ButtonPosition.up t rfl, ih hrest, List.nil_append]

/-- Closed form of the `DownPosition` branch of `processButton`. -/
theorem processButton_down_eq (clickDur holdDur : Int) (b : Button)
    (now : Int) (hne : b.lastPosition ≠ ButtonPosition.down) :
    processButton clickDur holdDur (some b) ButtonPosition.down now =
      .ok (⟨b.events, ButtonPosition.down, now,
        if includes b.events ButtonEvent.hold then some (now + holdDur)
        else b.holdTimer⟩,
        if includes b.events ButtonEvent.down then [ButtonEvent.down]
        else []) := by
  by_cases hH : includes b.events ButtonEvent.hold = true <;>
    simp [processButton, hne, hH, posEvent]

/-- Closed form of the `UpPosition` branch of `processButton`. -/
theorem processButton_up_eq (clickDur holdDur : Int) (b : Button)
    (now : Int) (hne : b.lastPosition ≠ ButtonPosition.up) :
    processButton clickDur holdDur (some b) ButtonPosition.up now =
      .ok (⟨b.events, ButtonPosition.up, b.downTime, none⟩,
        (if includes b.events ButtonEvent.up then [ButtonEvent.up]
         else []) ++
        (if includes b.events ButtonEvent.click ∧
            now - b.downTime < clickDur then [ButtonEvent.click]
         else [])) := by
  simp [processButton, hne, posEvent]

/-- Closed form of a full press/release pair starting from a released
button with no pending timer: `Down` handler output at `tDown`, the hold
firing at `tDown + holdDur` when subscribed and not cancelled in time,
then `Up` and (within the click window) `Click` outputs at `tUp`. -/
theorem runPress_eq (clickDur holdDur : Int) (b : Button) (tDown tUp : Int)
    (hpos : b.lastPosition = ButtonPosition.up)
    (htimer : b.holdTimer = none) :
    (runPress clickDur holdDur b tDown tUp).2 =
      (if includes b.events ButtonEvent.down then
        [(tDown, ButtonEvent.down)] else []) ++
      (if includes b.events ButtonEvent.hold ∧ tDown + holdDur ≤ tUp then
        [(tDown + holdDur, ButtonEvent.hold)] else []) ++
      (if includes b.events ButtonEvent.up then
        [(tUp, ButtonEvent.up)] else []) ++
      (if includes b.events ButtonEvent.click ∧ tUp - tDown < clickDur then
        [(tUp, ButtonEvent.click)] else []) := by
  have hne : b.lastPosition ≠ ButtonPosition.down := by simp [hpos]
  by_cases hD : includes b.events ButtonEvent.down = true <;>
  by_cases hH : includes b.events ButtonEvent.hold = true <;>
  by_cases hU : includes b.events ButtonEvent.up = true <;>
  by_cases hC : includes b.events ButtonEvent.click = true <;>
  by_cases hT : tDown + holdDur ≤ tUp <;>
  by_cases hK : tUp - tDown < clickDur <;>
    simp [runPress, processButton_down_eq clickDur holdDur b tDown hne,
      processButton_up_eq, htimer, hD, hH, hU, hC, hT, hK]

/-! ## C4 — duplicate events are swallowed, acted transitions alternate -/

/-- C4: an incoming event whose resolved position equals the button's
current `lastPosition` produces no handler invocation and leaves the
gesture state (including `downTime` and the hold timer) unchanged;
moreover after any accepted step the stored position equals the processed
position, so a second consecutive event with the same position is always
swallowed and acted-upon `lastPosition` transitions strictly alternate. -/
theorem processButton_debounce (clickDur holdDur : Int) (b : Button)
    (pos : ButtonPosition) (t1 t2 : Int) :
    (b.lastPosition = pos →
      processButton clickDur holdDur (some b) pos t1 = .ok (b, [])) ∧
    (∀ b1 out1,
      processButton clickDur holdDur (some b) pos t1 = .ok (b1, out1) →
        b1.lastPosition = pos ∧
        processButton clickDur holdDur (some b1) pos t2 = .ok (b1, [])) := by
  refine ⟨fun h => processButton_same clickDur holdDur b pos t1 h,
    fun b1 out1 h => ?_⟩
  have hl := processButton_lastPosition clickDur holdDur b b1 out1 pos t1 h
  exact ⟨hl, processButton_same clickDur holdDur b1 pos t2 hl⟩

/-- Witness for C4 at a concrete state: a repeated `Up` on a fresh
subscription is swallowed. -/
theorem processButton_debounce_witness :
    processButton 300 800 (some (mkButton none)) ButtonPosition.up 7 =
      .ok (mkButton none, []) :=
  (processButton_debounce 300 800 (mkButton none) ButtonPosition.up 7 9).1 rfl

/-! ## C9 — fresh buttons start `Up`; releases before the first press are
swallowed -/

/-- C9: a fresh subscription starts in the `Up` position (the Go zero
value), so an event carrying a release value (`≤ 0`) is swallowed as a
duplicate, and a whole trace of release values delivers no `UpEvent`, no
`ClickEvent`, and indeed no event at all before the first `Down`
transition. -/
theorem freshButton_ignores_releases (clickDur holdDur : Int)
    (events : Option (List ButtonEvent)) (trace : List (Int × Int))
    (h : ∀ p ∈ trace, p.2 ≤ 0) :
    (mkButton events).lastPosition = ButtonPosition.up ∧
    (∀ t : Int,
      processButton clickDur holdDur (some (mkButton events))
        ButtonPosition.up t = .ok (mkButton events, [])) ∧
    runButtonTrace clickDur holdDur (mkButton events) trace =
      (mkButton events, []) :=
  ⟨rfl,
   fun t => processButton_same clickDur holdDur (mkButton events)
     ButtonPosition.up t rfl,
   runButtonTrace_releases clickDur holdDur events trace h⟩

/-- Witness for C9: two concrete release events on a fresh all-events
subscription produce no handler invocation. -/
theorem freshButton_ignores_releases_witness :
    runButtonTrace 300 800 (mkButton none) [(0, 0), (3, -2)] =
      (mkButton none, []) :=
  (freshButton_ignores_releases 300 800 none [(0, 0), (3, -2)]
    (by decide)).2.2

/-! ## C8 — unmapped raw indices are dropped without any effect -/

/-- C8: an incoming button or axis event whose raw index has no entry in
the selected input mapping is dropped: no handler invocation, no state
change, and processing of the remaining events continues exactly as if the
event had not occurred. -/
theorem unmapped_events_ignored (g : Gamepad) (bidx aidx : Nat)
    (v w t1 t2 : Int) (rest : List (InEvt × Int))
    (hb : g.inputMapping ⟨InputTypeButton, bidx⟩ = none)
    (ha : g.inputMapping ⟨InputTypeAxis, aidx⟩ = none) :
    handleButtonEvent g bidx v t1 = (g, []) ∧
    handleAxisEvent g aidx w t2 = (g, []) ∧
    runGamepad g ((InEvt.button bidx v, t1) :: rest) = runGamepad g rest ∧
    runGamepad g ((InEvt.axis aidx w, t2) :: rest) = runGamepad g rest := by
  have h1 : handleButtonEvent g bidx v t1 = (g, []) := by
    simp only [handleButtonEvent, hb]
  have h2 : handleAxisEvent g aidx w t2 = (g, []) := by
    simp only [handleAxisEvent, ha]
  refine ⟨h1, h2, ?_, ?_⟩ <;>
    simp [runGamepad, handleEvent, h1, h2]

/-- Witness for C8: raw button index 11 and raw axis index 8 are unmapped
in the Xbox table; events on them leave the engine untouched. -/
theorem unmapped_events_ignored_witness :
    handleButtonEvent gXbox 11 1 0 = (gXbox, []) ∧
    handleAxisEvent gXbox 8 1 0 = (gXbox, []) := by
  have h := unmapped_events_ignored gXbox 11 8 1 1 0 0 [] rfl rfl
  exact ⟨h.1, h.2.1⟩

/-! ## C10 — the axis cache starts at zero and tracks the last value per
axis -/

/-- Button-path dispatch never touches the axis cache. -/
theorem dispatchButton_cache (g : Gamepad) (r : Resolved)
    (pos : ButtonPosition) (now : Int) :
    (dispatchButton g r pos now).1.axisCache = g.axisCache := by
  unfold dispatchButton
  split <;> rfl

/-- Processing a mapped axis event stores the raw value at exactly the
resolved identifier. -/
theorem handleAxisEvent_cache (g : Gamepad) (idx : Nat) (v now : Int)
    (r : Resolved) (hmap : g.inputMapping ⟨InputTypeAxis, idx⟩ = some r) :
    (handleAxisEvent g idx v now).1.axisCache =
      updateCache g.axisCache r v := by
  unfold handleAxisEvent
  rw [hmap]
  cases hg : axisGroup r with
  | none =>
    simp only [hg]
    split_ifs <;>
      first
        | exact dispatchButton_cache _ _ _ _
        | rfl
  | some p =>
    obtain ⟨grp, xI, yI⟩ := p
    simp only [hg]
    split <;> rfl

/-- C10: at construction the axis cache holds 0 for every identifier; a
processed axis event overwrites exactly the resolved identifier with the
raw value and leaves every other entry unchanged; consequently the first
event on one axis of a subscribed two-axis group invokes the direction
handler with 0 for the partner axis that has not reported yet. -/
theorem axisCache_tracks_last_value (g : Gamepad) (idx : Nat) (v now : Int)
    (r : Resolved) (hmap : g.inputMapping ⟨InputTypeAxis, idx⟩ = some r) :
    (∀ (inv : Bool) (cd hd : Int) (m : Input → Option Resolved)
       (r0 : Resolved), (mkGamepad inv cd hd m).axisCache r0 = 0) ∧
    (handleAxisEvent g idx v now).1.axisCache r = v ∧
    (∀ r0, r0 ≠ r →
      (handleAxisEvent g idx v now).1.axisCache r0 = g.axisCache r0) ∧
    (∀ v0 now0 : Int, (handleAxisEvent gLeftJoy 0 v0 now0).2 =
      [Emit.dir DirGroup.leftJoy ((v0 : ℚ) / (MaxValue : ℚ)) 0]) := by
  refine ⟨fun _ _ _ _ _ => rfl, ?_, ?_, ?_⟩
  · rw [handleAxisEvent_cache g idx v now r hmap]
    simp [updateCache]
  · intro r0 h0
    rw [handleAxisEvent_cache g idx v now r hmap]
    simp [updateCache, h0]
  · intro v0 now0
    simp [handleAxisEvent, gLeftJoy, gXbox, onLeftJoystick, mkGamepad,
      xboxMapping, emitDirection, updateCache, axisGroup, InputTypeAxis,
      InputTypeButton, MaxValue]

/-- Witness for C10: a first left-stick X event at raw index 0 stores the
value and invokes the handler with a zero Y component. -/
theorem axisCache_tracks_last_value_witness :
    (handleAxisEvent gLeftJoy 0 5 0).1.axisCache Resolved.LeftJoyXAxis = 5 ∧
    (handleAxisEvent gLeftJoy 0 5 0).1.axisCache Resolved.LeftJoyYAxis = 0 ∧
    (handleAxisEvent gLeftJoy 0 5 0).2 =
      [Emit.dir DirGroup.leftJoy (((5 : Int) : ℚ) / (MaxValue : ℚ)) 0] := by
  have h := axisCache_tracks_last_value gLeftJoy 0 5 0
    Resolved.LeftJoyXAxis rfl
  exact ⟨h.2.1, h.2.2.1 Resolved.LeftJoyYAxis (by decide), h.2.2.2 5 0⟩

/-! ## C2 — hold firing and cancellation (corrected: a fired hold does not
suppress a click when `clickDuration > holdDuration`) -/

/-- Counterexample to C2 as stated: with the caller-configurable durations
`clickDuration = 1000 ms` and `holdDuration = 100 ms`
(`WithClickDuration`/`WithHoldDuration` accept any duration), a press at
t=0 released at t=500 fires the `HoldEvent` at t=100 **and** a
`ClickEvent` at t=500 for the same press, contradicting the claim that no
`ClickEvent` fires for a press whose hold fired. -/
theorem runPress_hold_click_counterexample :
    (runPress 1000 100 (mkButton none) 0 500).2 =
      [(0, ButtonEvent.down), (100, ButtonEvent.hold),
       (500, ButtonEvent.up), (500, ButtonEvent.click)] := by
  decide

/-- C2 (amended): for a press at `tDown` released at `tUp` on a button
subscribed to `HoldEvent` (released state, no stale timer), the hold fires
exactly once at `tDown + holdDuration` iff the release does not happen
strictly before that deadline; a release before the deadline cancels the
timer so the hold never fires; and provided the configured
`clickDuration ≤ holdDuration` (true of the defaults 300 ms / 800 ms), a
press whose hold fired emits no `ClickEvent`. -/
theorem runPress_hold_semantics (clickDur holdDur : Int) (b : Button)
    (tDown tUp : Int) (hpos : b.lastPosition = ButtonPosition.up)
    (htimer : b.holdTimer = none)
    (hsub : includes b.events ButtonEvent.hold = true) :
    (tDown + holdDur ≤ tUp →
      selectEvents ButtonEvent.hold
        (runPress clickDur holdDur b tDown tUp).2 =
        [(tDown + holdDur, ButtonEvent.hold)]) ∧
    (tUp < tDown + holdDur →
      selectEvents ButtonEvent.hold
        (runPress clickDur holdDur b tDown tUp).2 = []) ∧
    (clickDur ≤ holdDur → tDown + holdDur ≤ tUp →
      selectEvents ButtonEvent.click
        (runPress clickDur holdDur b tDown tUp).2 = []) := by
  simp only [runPress_eq clickDur holdDur b tDown tUp hpos htimer]
  refine ⟨?_, ?_, ?_⟩
  · intro hT
    by_cases hD : includes b.events ButtonEvent.down = true <;>
    by_cases hU : includes b.events ButtonEvent.up = true <;>
    by_cases hC : includes b.events ButtonEvent.click = true <;>
    by_cases hK : tUp - tDown < clickDur <;>
      simp [selectEvents, hsub, hD, hU, hC, hK, hT]
  · intro hT
    have hT2 : ¬ (tDown + holdDur ≤ tUp) := by omega
    by_cases hD : includes b.events ButtonEvent.down = true <;>
    by_cases hU : includes b.events ButtonEvent.up = true <;>
    by_cases hC : includes b.events ButtonEvent.click = true <;>
    by_cases hK : tUp - tDown < clickDur <;>
      simp [selectEvents, hsub, hD, hU, hC, hK, hT2]
  · intro hCH hT
    have hK : ¬ (tUp - tDown < clickDur) := by omega
    by_cases hD : includes b.events ButtonEvent.down = true <;>
    by_cases hU : includes b.events ButtonEvent.up = true <;>
      simp [selectEvents, hsub, hD, hU, hK, hT]

/-- Witness for the amended C2 at the default durations: a press at t=0
released at t=1000 fires exactly one hold at t=800 and no click; and a
press released at t=500 fires no hold. -/
theorem runPress_hold_semantics_witness :
    selectEvents ButtonEvent.hold (runPress 300 800 (mkButton none) 0 1000).2 =
      [(800, ButtonEvent.hold)] ∧
    selectEvents ButtonEvent.click
      (runPress 300 800 (mkButton none) 0 1000).2 = [] ∧
    selectEvents ButtonEvent.hold
      (runPress 300 800 (mkButton none) 0 500).2 = [] := by
  have h1 := runPress_hold_semantics 300 800 (mkButton none) 0 1000 rfl rfl rfl
  have h2 := runPress_hold_semantics 300 800 (mkButton none) 0 500 rfl rfl rfl
  refine ⟨?_, ?_, ?_⟩
  · have := h1.1 (by decide)
    simpa using this
  · exact h1.2.2 (by decide) (by decide)
  · exact h2.2.1 (by decide)

/-! ## C3 — click gesture ordering within the click window -/

/-- C3: a `Down` at `tDown` followed by an `Up` at `tUp` strictly inside
the click window invokes the handler with `DownEvent` and `UpEvent` (each
if subscribed) and exactly one `ClickEvent`, in the order Down (at press
time), Up, Click (at release time); a release at or after the window
elapses emits no `ClickEvent`, while processing still succeeds (no error:
`processButton` only errors for an unsubscribed `nil` button) and a
subscribed `UpEvent` is still delivered. -/
theorem runPress_click_semantics (clickDur holdDur : Int) (b : Button)
    (tDown tUp : Int) (hpos : b.lastPosition = ButtonPosition.up)
    (htimer : b.holdTimer = none)
    (hclick : includes b.events ButtonEvent.click = true) :
    (tUp - tDown < clickDur →
      dropEvents ButtonEvent.hold (runPress clickDur holdDur b tDown tUp).2 =
        (if includes b.events ButtonEvent.down then
          [(tDown, ButtonEvent.down)] else []) ++
        (if includes b.events ButtonEvent.up then
          [(tUp, ButtonEvent.up)] else []) ++
        [(tUp, ButtonEvent.click)]) ∧
    (clickDur ≤ tUp - tDown →
      selectEvents ButtonEvent.click
        (runPress clickDur holdDur b tDown tUp).2 = [] ∧
      (includes b.events ButtonEvent.up = true →
        selectEvents ButtonEvent.up
          (runPress clickDur holdDur b tDown tUp).2 =
          [(tUp, ButtonEvent.up)]) ∧
      (∀ (pos : ButtonPosition) (now : Int), ∃ res,
        processButton clickDur holdDur (some b) pos now = .ok res)) := by
  have hok : ∀ (pos : ButtonPosition) (now : Int), ∃ res,
      processButton clickDur holdDur (some b) pos now = .ok res := by
    intro pos now
    by_cases hd : b.lastPosition = pos
    · exact ⟨(b, []), processButton_same clickDur holdDur b pos now hd⟩
    · cases pos
      · exact ⟨_, processButton_up_eq clickDur holdDur b now hd⟩
      · exact ⟨_, processButton_down_eq clickDur holdDur b now hd⟩
  simp only [runPress_eq clickDur holdDur b tDown tUp hpos htimer]
  refine ⟨?_, fun hK => ⟨?_, fun hU2 => ?_, hok⟩⟩
  · intro hK
    by_cases hD : includes b.events ButtonEvent.down = true <;>
    by_cases hH : includes b.events ButtonEvent.hold = true <;>
    by_cases hU : includes b.events ButtonEvent.up = true <;>
    by_cases hT : tDown + holdDur ≤ tUp <;>
      simp [dropEvents, hclick, hD, hH, hU, hT, hK]
  · have hK2 : ¬ (tUp - tDown < clickDur) := by omega
    by_cases hD : includes b.events ButtonEvent.down = true <;>
    by_cases hH : includes b.events ButtonEvent.hold = true <;>
    by_cases hU : includes b.events ButtonEvent.up = true <;>
    by_cases hT : tDown + holdDur ≤ tUp <;>
      simp [selectEvents, hclick, hD, hH, hU, hT, hK2]
  · have hK2 : ¬ (tUp - tDown < clickDur) := by omega
    by_cases hD : includes b.events ButtonEvent.down = true <;>
    by_cases hH : includes b.events ButtonEvent.hold = true <;>
    by_cases hT : tDown + holdDur ≤ tUp <;>
      simp [selectEvents, hclick, hD, hH, hU2, hT, hK2]

/-- Witness for C3: on a fresh all-events subscription with the default
durations, a press at t=0 released at t=100 delivers Down, Up, Click in
order; released at t=400 it delivers no Click but still the Up. -/
theorem runPress_click_semantics_witness :
    dropEvents ButtonEvent.hold (runPress 300 800 (mkButton none) 0 100).2 =
      [(0, ButtonEvent.down), (100, ButtonEvent.up),
       (100, ButtonEvent.click)] ∧
    selectEvents ButtonEvent.click
      (runPress 300 800 (mkButton none) 0 400).2 = [] ∧
    selectEvents ButtonEvent.up (runPress 300 800 (mkButton none) 0 400).2 =
      [(400, ButtonEvent.up)] := by
  have h1 := runPress_click_semantics 300 800 (mkButton none) 0 100 rfl rfl rfl
  have h2 := runPress_click_semantics 300 800 (mkButton none) 0 400 rfl rfl rfl
  refine ⟨?_, ?_, ?_⟩
  · have := h1.1 (by decide)
    simpa using this
  · exact (h2.2 (by decide)).1
  · exact (h2.2 (by decide)).2.1 rfl

/-! ## C1 — axis vector composition (corrected: no clamping is applied and
`16384/32767 ≠ 0.5`) -/

/-- Counterexample to C1 as stated.  On the Y-inverted dpad group, cached
values `(16384, -16384)` (reached here by two mapped axis events) invoke
the handler with both components `16384/32767`, which differs from the
claimed `0.5` by exactly `1/65534` — far more than any `float32` rounding
error (below `2^-24` at this magnitude), so the `float32` computation in
the source does not yield `0.5` either.  And no clamping is applied: the
representable `int16` value `-32768` produces the component
`-32768/32767 < -1`, outside the claimed `[-1.0, 1.0]`. -/
theorem emitDirection_values_counterexample :
    ((handleAxisEvent (handleAxisEvent gDpadInv 6 16384 0).1 7 (-16384)
        0).2 =
      [Emit.dir DirGroup.dpad ((16384 : ℚ) / 32767)
        ((16384 : ℚ) / 32767)]) ∧
    (16384 : ℚ) / 32767 ≠ 1 / 2 ∧
    (16384 : ℚ) / 32767 - 1 / 2 = 1 / 65534 ∧
    ((handleAxisEvent gDpadPlain 6 (-32768) 0).2 =
      [Emit.dir DirGroup.dpad ((-32768 : ℚ) / 32767) 0]) ∧
    (-32768 : ℚ) / 32767 < -1 := by
  refine ⟨?_, by norm_num, by norm_num, ?_, by norm_num⟩
  · simp [handleAxisEvent, emitDirection, updateCache, gDpadInv, gXbox,
      onDPad, mkGamepad, xboxMapping, axisGroup, MaxValue, InputTypeAxis,
      InputTypeButton]
  · simp [handleAxisEvent, emitDirection, updateCache, gDpadPlain, gXbox,
      onDPad, mkGamepad, xboxMapping, axisGroup, MaxValue, InputTypeAxis,
      InputTypeButton]

/-- C1 (amended): on each resolved axis event belonging to a two-axis
group whose direction handler is registered, the engine stores the raw
signed value in the axis cache and then invokes the handler with
`(x, y) = (cache[xId]/MaxValue, cache[yId]/MaxValue)` (`MaxValue = 32767`,
exact division, **no clamping**), with `y` negated before the division
when Y-inversion is configured; cached values `(16384, -16384)` on a
Y-inverted group therefore yield `(16384/32767, 16384/32767)`
(≈ `(0.50002, 0.50002)`), and cached values at `±32767` yield exactly
`±1.0`. -/
theorem handleAxisEvent_direction (g : Gamepad) (idx : Nat) (v now : Int)
    (r : Resolved) (grp : DirGroup) (xI yI : Resolved)
    (hmap : g.inputMapping ⟨InputTypeAxis, idx⟩ = some r)
    (hgrp : axisGroup r = some (grp, xI, yI))
    (hh : g.dirHandlers grp = true) :
    handleAxisEvent g idx v now =
      ({ g with axisCache := updateCache g.axisCache r v },
       [Emit.dir grp
         ((updateCache g.axisCache r v xI : ℚ) / (MaxValue : ℚ))
         (((if g.invertY then updateCache g.axisCache r v yI * (-1)
            else updateCache g.axisCache r v yI : Int) : ℚ) /
           (MaxValue : ℚ))]) := by
  unfold handleAxisEvent
  rw [hmap]
  simp only [hgrp]
  simp [emitDirection, hh]

/-- Witness for the amended C1: a dpad X event at full scale 32767 on the
subscribed dpad group yields exactly `(1.0, 0.0)`. -/
theorem handleAxisEvent_direction_witness :
    (handleAxisEvent gDpadPlain 6 32767 0).2 =
      [Emit.dir DirGroup.dpad 1 0] := by
  have h := handleAxisEvent_direction gDpadPlain 6 32767 0
    Resolved.DPadXAxis DirGroup.dpad Resolved.DPadXAxis Resolved.DPadYAxis
    (by decide) rfl (by decide)
  rw [h]
  simp [updateCache, gDpadPlain, gXbox, mkGamepad, onDPad, MaxValue]

/-! ## C5 — dispatcher: bounded delivery, drop on timeout, but no output
channel closure (corrected) -/

/-- Individual dispatcher iterations never close an output channel; the
source contains no `close(h.buttonCh)` or `close(h.axisCh)`. -/
theorem dispatchStep_no_close (i : DispatchIn) :
    DispatchAct.closeOutput ∉ (dispatchStep i).1 := by
  cases i with
  | ctxDone => decide
  | ingressClosed => decide
  | ev e ready =>
    simp only [dispatchStep]
    split_ifs <;> cases ready <;> simp

/-- No dispatcher run ever closes an output channel. -/
theorem dispatchRun_no_close (l : List DispatchIn) :
    DispatchAct.closeOutput ∉ (dispatchRun l).1 := by
  induction l with
  | nil => simp [dispatchRun]
  | cons i rest ih =>
    by_cases h : (dispatchStep i).2
    · simp only [dispatchRun, if_pos h]
      intro hm
      rcases List.mem_append.mp hm with hm | hm
      · exact dispatchStep_no_close i hm
      · exact ih hm
    · simp only [dispatchRun, if_neg h]
      exact dispatchStep_no_close i

/-- Counterexample to C5 as stated: on context cancellation (and likewise
on ingress closure) the coordinator stops — the run returns with the
running flag `false` — while performing no action at all; in particular no
output-channel closure ever occurs, contradicting the claim that both
output channels' writers are closed. -/
theorem dispatcher_no_close_counterexample :
    dispatchRun [DispatchIn.ctxDone] = ([], false) ∧
    dispatchRun [DispatchIn.ingressClosed] = ([], false) ∧
    DispatchAct.closeOutput ∉ (dispatchRun [DispatchIn.ctxDone]).1 := by
  refine ⟨rfl, rfl, by decide⟩

/-- C5 (amended): every ingress event classified as a button or axis event
produces exactly one bounded delivery attempt — delivered when the
consumer accepts within the 20 ms bound (`consumerReady`), dropped
otherwise, never retried — and the loop continues; context cancellation or
ingress closure stops the coordinator loop, but the output channels are
never closed. -/
theorem dispatcher_semantics :
    (∀ (e : RawEv) (ready : Bool), e.type = buttonEventType →
      dispatchStep (.ev e ready) =
        ((if ready then [DispatchAct.deliverButton e.index e.value]
          else [DispatchAct.dropButton e.index]), true)) ∧
    (∀ (e : RawEv) (ready : Bool), e.type = axisEventType →
      dispatchStep (.ev e ready) =
        ((if ready then [DispatchAct.deliverAxis e.index e.value]
          else [DispatchAct.dropAxis e.index]), true)) ∧
    dispatchStep DispatchIn.ctxDone = ([], false) ∧
    dispatchStep DispatchIn.ingressClosed = ([], false) ∧
    (∀ l, DispatchAct.closeOutput ∉ (dispatchRun l).1) := by
  refine ⟨?_, ?_, rfl, rfl, dispatchRun_no_close⟩
  · intro e ready ht
    simp [dispatchStep, ht, buttonEventType]
  · intro e ready ht
    simp [dispatchStep, ht, buttonEventType, axisEventType]

/-- Witness for the amended C5 at concrete events: a button event with a
ready consumer is delivered; an axis event with a stalled consumer is
dropped. -/
theorem dispatcher_semantics_witness :
    dispatchStep (DispatchIn.ev ⟨1, 3, 7⟩ true) =
      ([DispatchAct.deliverButton 3 7], true) ∧
    dispatchStep (DispatchIn.ev ⟨2, 4, 9⟩ false) =
      ([DispatchAct.dropAxis 4], true) := by
  have h := dispatcher_semantics
  exact ⟨by simpa using h.1 ⟨1, 3, 7⟩ true rfl,
    by simpa using h.2.1 ⟨2, 4, 9⟩ false rfl⟩

/-! ## C6 — edge synthesizer (corrected: nonzero axes re-emit every poll,
triggers edge at the full-scale pattern 255, buttons also emit falling
edges) -/

/-- Index filtering through an `edgeOut` guard. -/
theorem filter_edgeOut (e idx : Nat) (v : Int) (j : Nat) :
    (edgeOut e idx v).filter (fun x => x.index == j) =
      if idx = j then edgeOut e idx v else [] := by
  by_cases hj : idx = j
  · subst hj
    unfold edgeOut
    split <;> simp
  · unfold edgeOut
    split <;> simp [hj]

/-- Index filtering through an `axisOut` guard. -/
theorem filter_axisOut (e idx : Nat) (v : Int) (j : Nat) :
    (axisOut e idx v).filter (fun x => x.index == j) =
      if idx = j then axisOut e idx v else [] := by
  by_cases hj : idx = j
  · subst hj
    unfold axisOut
    split <;> simp
  · unfold axisOut
    split <;> simp [hj]

/-- Counterexample to C6 as stated.  First conjuncts: polling the same
report (left-stick X word 5, everything else idle) twice emits the axis
event **again** on the second poll although no logical state changed (the
cache is unchanged, third conjunct) — the change-only check for 16-bit
axes is commented out in `axisEdge`.  Last conjunct: the L2 trigger byte
rising from 0 to 128 — a zero/nonzero transition — emits nothing, because
the trigger edge is matched against the full-scale pattern 255, not
against nonzero. -/
theorem pollStep_counterexample :
    (pollStep emptyPollCache rptLJ5).2 =
      [⟨axisEventType, ljxAxisIndex, 5⟩] ∧
    (pollStep (pollStep emptyPollCache rptLJ5).1 rptLJ5).2 =
      [⟨axisEventType, ljxAxisIndex, 5⟩] ∧
    (pollStep (pollStep emptyPollCache rptLJ5).1 rptLJ5).1 =
      (pollStep emptyPollCache rptLJ5).1 ∧
    (pollStep emptyPollCache rptTrig128).2 = [] := by
  decide

/-- C6 (amended): per-field edge synthesis as the code implements it.
Button-style fields emit on **both** transitions of the masked-pattern
match — value 1 on rising, value 0 on falling — and exactly when the match
changed; 16-bit axis words emit the literal signed magnitude on **every**
nonzero sample (also when unchanged since the previous poll) and emit 0
once on falling to zero; the 8-bit trigger fields are synthesized as axis
events at transitions of the full-scale pattern `value = 255`, carrying
`MaxValue` on rising and 0 on falling. -/
theorem edge_synthesis_semantics :
    (∀ (b want : Nat) (c : Bool), buttonEdge b want c =
      if b = want then
        (if c then (invalidEventType, 0, true)
         else (buttonEventType, 1, true))
      else
        (if c then (buttonEventType, 0, false)
         else (invalidEventType, 0, false))) ∧
    (∀ (v : Int) (c : Bool), axisEdge v c =
      if v ≠ 0 then (axisEventType, v, true)
      else if c then (axisEventType, 0, false)
      else (invalidEventType, 0, c)) ∧
    (∀ (c : PollCache) (r : Report),
      (pollStep c r).2.filter (fun x => x.index == l2AxisIndex) =
        if r.b4 = 255 then
          (if c.l2Axis then []
           else [⟨axisEventType, l2AxisIndex, MaxValue⟩])
        else
          (if c.l2Axis then [⟨axisEventType, l2AxisIndex, 0⟩] else [])) ∧
    (∀ (c : PollCache) (r : Report),
      (pollStep c r).2.filter (fun x => x.index == ljxAxisIndex) =
        if toInt16 r.b6 r.b7 ≠ 0 then
          [⟨axisEventType, ljxAxisIndex, toInt16 r.b6 r.b7⟩]
        else if c.ljXAxis then [⟨axisEventType, ljxAxisIndex, 0⟩]
        else []) := by
  refine ⟨?_, ?_, ?_, ?_⟩
  · intro b want c
    unfold buttonEdge
    by_cases hb : b = want <;> cases c <;> simp [hb]
  · intro v c
    unfold axisEdge
    by_cases hv : v ≠ 0 <;> cases c <;> simp [hv]
  · intro c r
    simp only [pollStep, List.filter_append, filter_edgeOut, filter_axisOut,
      startButtonIndex, selectButtonIndex, ljButtonIndex, rjButtonIndex,
      dpadXAxisIndex, dpadYAxisIndex, crossButtonIndex, circleButtonIndex,
      squareButtonIndex, triangleButtonIndex, l1ButtonIndex, r1ButtonIndex,
      analogButtonIndex, l2AxisIndex, r2AxisIndex, ljxAxisIndex,
      ljyAxisIndex, rjxAxisIndex, rjyAxisIndex]
    norm_num
    by_cases hb : r.b4 = 255 <;> cases hc : c.l2Axis <;>
      simp [buttonEdge, axisOut, hb, hc, invalidEventType, buttonEventType,
        axisEventType, l2AxisIndex]
  · intro c r
    simp only [pollStep, List.filter_append, filter_edgeOut, filter_axisOut,
      startButtonIndex, selectButtonIndex, ljButtonIndex, rjButtonIndex,
      dpadXAxisIndex, dpadYAxisIndex, crossButtonIndex, circleButtonIndex,
      squareButtonIndex, triangleButtonIndex, l1ButtonIndex, r1ButtonIndex,
      analogButtonIndex, l2AxisIndex, r2AxisIndex, ljxAxisIndex,
      ljyAxisIndex, rjxAxisIndex, rjyAxisIndex]
    norm_num
    by_cases hv : toInt16 r.b6 r.b7 = 0 <;> cases hc : c.ljXAxis <;>
      simp [axisEdge, edgeOut, hv, hc, invalidEventType, buttonEventType,
        axisEventType, ljxAxisIndex]

/-! ## C7 — connection succeeds exactly on a matched driver name -/

/-- Inversion of a successful device-name match: the platform-reported name
exists and its whitespace-trimmed form equals the returned
driver-mapping key. -/
theorem isGamepad_some (env : Env) (i : Nat) (k : String)
    (h : isGamepad env i = some k) :
    ∃ d, env.readName i = some d ∧ trimSpace d = k ∧
      k ∈ knownDriverNames := by
  cases hr : env.readName i with
  | none => simp [isGamepad, hr] at h
  | some d =>
    simp only [isGamepad, hr] at h
    refine ⟨d, rfl, ?_, List.mem_of_find?_eq_some h⟩
    have hp := List.find?_some h
    exact of_decide_eq_true hp

/-- The probe loop fails when no existing probed index matches. -/
theorem probe_none (env : Env) (l : List Nat)
    (h : ∀ i ∈ l, env.deviceExists i = true → isGamepad env i = none) :
    probe env l = none := by
  induction l with
  | nil => rfl
  | cons j rest ih =>
    have hrest : ∀ i ∈ rest, env.deviceExists i = true →
        isGamepad env i = none :=
      fun i hi => h i (List.mem_cons_of_mem _ hi)
    by_cases hex : env.deviceExists j = true
    · have hj := h j (List.mem_cons_self _ _) hex
      simp [probe, hex, hj, ih hrest]
    · simp [probe, hex, ih hrest]

/-- Inversion of a successful probe: the returned index was probed, its
device node exists and its name matched. -/
theorem probe_some (env : Env) (l : List Nat) (i : Nat) (k : String)
    (h : probe env l = some (i, k)) :
    i ∈ l ∧ env.deviceExists i = true ∧ isGamepad env i = some k := by
  induction l with
  | nil => cases h
  | cons j rest ih =>
    by_cases hex : env.deviceExists j = true
    · rw [probe, if_pos hex] at h
      cases hg : isGamepad env j with
      | some k0 =>
        rw [hg] at h
        simp only [Option.some.injEq, Prod.mk.injEq] at h
        obtain ⟨rfl, rfl⟩ := h
        exact ⟨List.mem_cons_self _ _, hex, hg⟩
      | none =>
        rw [hg] at h
        obtain ⟨hm, hrest⟩ := ih h
        exact ⟨List.mem_cons_of_mem _ hm, hrest⟩
    · rw [probe, if_neg hex] at h
      obtain ⟨hm, hrest⟩ := ih h
      exact ⟨List.mem_cons_of_mem _ hm, hrest⟩

/-- C7: connection fails — `NewGamepad` returns an error and no gamepad
value — whenever no probed device (joystick indices 0–4) reports a name
that, whitespace-trimmed and compared case-sensitively, equals a known
driver-mapping key; conversely a successful connection always carries a
matched device identity, with the input mapping selected from the driver
table at connect time. -/
theorem newGamepad_connection (env : Env) :
    ((∀ i, i < 5 → ∀ d, env.readName i = some d →
        trimSpace d ∉ knownDriverNames) →
      newGamepadConn env = .error "failed to connect with device") ∧
    (∀ g, newGamepadConn env = .ok g →
      g.driver ∈ knownDriverNames ∧
      g.inputMapping = driverMappingOf g.driver ∧
      ∃ i d, i < 5 ∧ env.deviceExists i = true ∧
        env.readName i = some d ∧ trimSpace d = g.driver) := by
  constructor
  · intro h
    have hp : probe env [0, 1, 2, 3, 4] = none := by
      apply probe_none
      intro i hi _
      cases hg : isGamepad env i with
      | none => rfl
      | some k =>
        obtain ⟨d, hrd, htr, hk⟩ := isGamepad_some env i k hg
        have hi5 : i < 5 := by
          have hi2 : i = 0 ∨ i = 1 ∨ i = 2 ∨ i = 3 ∨ i = 4 := by
            simpa using hi
          omega
        exact absurd (htr ▸ hk) (h i hi5 d hrd)
    unfold newGamepadConn connect
    rw [hp]
  · intro g hg
    unfold newGamepadConn at hg
    cases hc : connect env with
    | error e => rw [hc] at hg; cases hg
    | ok d =>
      rw [hc] at hg
      simp only [Except.ok.injEq] at hg
      subst hg
      unfold connect at hc
      cases hpp : probe env [0, 1, 2, 3, 4] with
      | none => rw [hpp] at hc; cases hc
      | some p =>
        obtain ⟨i, k⟩ := p
        simp only [hpp] at hc
        by_cases hopen : env.openOk i = true
        · rw [if_pos hopen] at hc
          simp only [Except.ok.injEq] at hc
          subst hc
          obtain ⟨hin, hex, hgam⟩ := probe_some env _ i k hpp
          obtain ⟨dname, hrd, htr, hk⟩ := isGamepad_some env i k hgam
          have hi5 : i < 5 := by
            have hi2 : i = 0 ∨ i = 1 ∨ i = 2 ∨ i = 3 ∨ i = 4 := by
              simpa using hin
            omega
          exact ⟨hk, rfl, i, dname, hi5, hex, hrd, htr⟩
        · rw [if_neg hopen] at hc
          cases hc

/-- Witness for C7: an environment reporting only the unknown name
`PiHut Gamepad` fails to connect; an environment reporting
`" Microsoft X-Box 360 pad\n"` at index 1 connects with the trimmed
identity and the Xbox mapping. -/
theorem newGamepad_connection_witness :
    newGamepadConn envNoMatch = .error "failed to connect with device" ∧
    newGamepadConn envMatch =
      .ok ⟨"Microsoft X-Box 360 pad",
        driverMappingOf "Microsoft X-Box 360 pad"⟩ ∧
    ∃ i d, i < 5 ∧ envMatch.deviceExists i = true ∧
      envMatch.readName i = some d ∧
      trimSpace d = "Microsoft X-Box 360 pad" := by
  refine ⟨(newGamepad_connection envNoMatch).1 ?_, rfl, ?_⟩
  · intro i hi d hd
    simp only [envNoMatch, Option.some.injEq] at hd
    subst hd
    decide
  · have h := (newGamepad_connection envMatch).2
      ⟨"Microsoft X-Box 360 pad",
        driverMappingOf "Microsoft X-Box 360 pad"⟩ rfl
    exact h.2.2

end PiGamepad


